import Mathlib

/-
Shallow embedding of the MedTrack Flask application (src/app.py).

State lives in two process-wide lists, `users` and `appointments`; each
route handler is embedded as a pure function from the current state, the
session and the submitted form to a response together with the new state.
Form fields (`request.form.get(k)`) are `Option String` (absent key gives
`none`); the session is a record of the optional `user` and `role` keys.
External collaborators are parameters: password hashing is an opaque
`hash`/`verify` pair, SMTP delivery is a boolean oracle, `uuid.uuid4()`
and `datetime.now()` are passed in as strings.
-/

namespace MedTrack

/-- Truthiness of a Python form value: present and a non-empty string. -/
def truthy : Option String → Bool
  | none => false
  | some s => !s.data.isEmpty

/-- `str(x)` on an optional string: Python renders `None` as "None". -/
def pyStr : Option String → String
  | none => "None"
  | some s => s

/-- Digit run of a Python integer literal body: after the first digit,
underscores may separate digits (one underscore must be followed by a
digit; it may not trail or repeat). Accumulates the base-10 value. -/
def parseDigitsAux : List Char → Nat → Option Nat
  | [], acc => some acc
  | '_' :: c :: cs, acc =>
      if c.isDigit then parseDigitsAux cs (acc * 10 + (c.toNat - 48)) else none
  | ['_'], _ => none
  | c :: cs, acc =>
      if c.isDigit then parseDigitsAux cs (acc * 10 + (c.toNat - 48)) else none

/-- Nonempty digit run: first char must be a digit. -/
def parseNatDigits : List Char → Option Nat
  | [] => none
  | c :: cs => if c.isDigit then parseDigitsAux cs (c.toNat - 48) else none

/-- The whitespace characters `str.strip()` removes. -/
def pySpace (c : Char) : Bool :=
  c == ' ' || c == '\t' || c == '\n' || c == '\r' || c == '\x0b' || c == '\x0c'

/-- Strip leading and trailing whitespace from a character list. -/
def pyStrip (cs : List Char) : List Char :=
  ((cs.dropWhile pySpace).reverse.dropWhile pySpace).reverse

/-- `int(s)` on a string: surrounding whitespace stripped, optional sign,
then decimal digits (ASCII; Python additionally accepts non-ASCII decimal
digits, which no route of this app receives). `none` models the raised
`ValueError`. -/
def pyIntCore (s : String) : Option Int :=
  match pyStrip s.data with
  | '+' :: rest => (parseNatDigits rest).map Int.ofNat
  | '-' :: rest => (parseNatDigits rest).map (fun n => -(n : Int))
  | rest => (parseNatDigits rest).map Int.ofNat

/-- `int(request.form.get(k))`: `int(None)` raises `TypeError`, modelled
as `none` like the `ValueError` of a malformed string. -/
def pyInt : Option String → Option Int
  | none => none
  | some s => pyIntCore s

/-- Python list indexing `l[i]` with an `int` index: a negative index
counts from the end; out of range (either side) raises `IndexError`,
modelled as `none`. -/
def pyIndex {α : Type} (l : List α) (i : Int) : Option α :=
  if 0 ≤ i then l.get? i.toNat
  else if (-i).toNat ≤ l.length then l.get? (l.length - (-i).toNat)
  else none

/-- A user dict as built by `signup`: the five base keys are always
present; the role-specific keys hold whatever `request.form.get` gave
(possibly `None`), and are absent for an unrecognized `userType`. -/
structure User where
  id : String
  type : String
  name : String
  email : String
  password : String
  age : Option String
  address : Option String
  specialization : Option String
  mobile : Option String
deriving Repr, DecidableEq

/-- An appointment dict as built by `book_appointment`; the three
diagnosis keys are absent (`none`) until `submit_diagnosis` writes them. -/
structure Appointment where
  appointment_id : String
  patient_email : String
  doctor_id : Int
  date : Option String
  time : Option String
  status : String
  symptoms : String
  patient_id : Nat
  created_at : String
  diagnosis : Option String
  treatment_plan : Option String
  prescription : Option String
deriving Repr, DecidableEq

/-- The two process-wide lists. -/
structure AppState where
  users : List User
  appointments : List Appointment
deriving Repr, DecidableEq

/-- The Flask session: the `user` and `role` keys, each possibly absent. -/
structure Session where
  user : Option String
  role : Option String
deriving Repr, DecidableEq

/-- No two stored users share an email. -/
def emailsUnique (users : List User) : Prop :=
  (users.map User.email).Nodup

instance (users : List User) : Decidable (emailsUnique users) := by
  unfold emailsUnique; infer_instance

/-! ### login -/

/-- Outcome of POST `/login`. `success` carries the session values written
(`session[user] := u[email]`, `session[role] := u[type]`) and the
redirect target `f"{role}_dashboard"` built from the form role. `fault`
is the unhandled error of `check_password_hash(digest, None)` when the
password key is absent but a user matched email and role. -/
inductive LoginResult
  | success (sessionUser : String) (sessionRole : String) (redirect : String)
  | invalidCredentials
  | fault
deriving Repr, DecidableEq

/-- POST `/login` (src/app.py lines 109-127). `verify digest password`
embeds `check_password_hash`. -/
def login (verify : String → String → Bool)
    (users : List User) (role email password : Option String) : LoginResult :=
  match users.find? (fun u => email == some u.email && role == some u.type) with
  | none => .invalidCredentials
  | some u =>
      match password with
      | none => .fault
      | some p =>
          if verify u.password p then
            .success u.email u.type (pyStr role ++ "_dashboard")
          else .invalidCredentials

/-! ### forgot password -/

/-- Outcome of POST `/forgot-password`: two distinct flash messages, both
followed by a redirect to `/login`. -/
inductive ForgotResult
  | resetLinkSent
  | emailNotFound
deriving Repr, DecidableEq

/-- POST `/forgot-password` (src/app.py lines 273-283). Returns the flash
outcome and the (unchanged) state. -/
def forgot_password (st : AppState) (email : Option String) :
    ForgotResult × AppState :=
  match st.users.find? (fun u => email == some u.email) with
  | some _ => (.resetLinkSent, st)
  | none => (.emailNotFound, st)

/-! ### signup -/

/-- The form fields POST `/signup` reads. -/
structure SignupForm where
  userType : Option String
  name : Option String
  email : Option String
  password : Option String
  confirm_password : Option String
  patient_age : Option String
  address : Option String
  mobile : Option String
  doctor_age : Option String
  specialization : Option String
deriving Repr, DecidableEq

/-- Flash outcome of POST `/signup`: the three failure messages each
redirect back to `/signup`; success redirects to `/login`. -/
inductive SignupResult
  | missingFields
  | passwordMismatch
  | duplicateEmail
  | success
deriving Repr, DecidableEq

/-- The user dict built at src/app.py lines 82-101: the five base keys,
then role-specific keys for a patient or a doctor `userType` (none for
any other value). -/
def newUser (hash : String → String) (freshId : String) (f : SignupForm) : User :=
  let base : User :=
    { id := freshId, type := pyStr f.userType, name := pyStr f.name,
      email := pyStr f.email, password := hash (pyStr f.password),
      age := none, address := none, specialization := none, mobile := none }
  if f.userType == some "patient" then
    { base with age := f.patient_age, address := f.address, mobile := f.mobile }
  else if f.userType == some "doctor" then
    { base with age := f.doctor_age, specialization := f.specialization,
                mobile := f.mobile }
  else base

/-- POST `/signup` (src/app.py lines 61-107). `hash` embeds
`generate_password_hash`; `freshId` the `uuid.uuid4()` draw. Returns the
flash outcome and the new `users` list. -/
def signup (hash : String → String) (freshId : String)
    (users : List User) (f : SignupForm) : SignupResult × List User :=
  if !(truthy f.userType && truthy f.name && truthy f.email &&
       truthy f.password && truthy f.confirm_password) then
    (.missingFields, users)
  else if f.password ≠ f.confirm_password then
    (.passwordMismatch, users)
  else if users.any (fun u => f.email == some u.email) then
    (.duplicateEmail, users)
  else
    (.success, users ++ [newUser hash freshId f])

/-! ### patient dashboard -/

/-- Outcome of GET `/patient/dashboard`. `fault` is the unhandled
`TypeError` of subscripting `None` when the session email resolves to no
stored user (line 142 reads `user[email]` from the `None` of line 141). -/
inductive PatientDashboardResult
  | unauthorized
  | fault
  | ok (user : User) (appts : List Appointment)
      (pending completed total : Nat) (doctorList : List Nat)
deriving Repr, DecidableEq

/-- GET `/patient/dashboard` (src/app.py lines 135-150). -/
def patient_dashboard (st : AppState) (sess : Session) : PatientDashboardResult :=
  if sess.user = none ∨ sess.role ≠ some "patient" then .unauthorized
  else
    match st.users.find? (fun u => sess.user == some u.email) with
    | none => .fault
    | some u =>
        let userAppts := st.appointments.filter (fun a => a.patient_email == u.email)
        .ok u userAppts
          (userAppts.countP (fun a => a.status == "Pending"))
          (userAppts.countP (fun a => a.status == "Completed"))
          userAppts.length
          (((List.range st.users.length).zip st.users).filterMap
            (fun p => if p.2.type == "doctor" then some p.1 else none))

/-! ### book appointment -/

/-- The form fields POST `/book-appointment` reads. -/
structure BookForm where
  doctor_id : Option String
  appointment_date : Option String
  appointment_time : Option String
  symptoms : Option String
deriving Repr, DecidableEq

/-- What a delivery attempt leaves in the log: `logging.info` on success,
`logging.error` on the swallowed exception. -/
inductive EmailLog
  | info (recipient : String)
  | error
deriving Repr, DecidableEq

/-- `send_email` (src/app.py lines 37-53): attempts SMTP delivery via the
oracle `deliver`, catches every failure, and only logs. It returns to its
caller in both cases; the log entry is the one observable difference. -/
def send_email (deliver : String → String → String → Bool)
    (to_email subject message : String) : EmailLog :=
  if deliver to_email subject message then .info to_email else .error

/-- Response of POST `/book-appointment`. `typeFault` is the unhandled
`TypeError`/`ValueError` of `int(...)` on a missing or malformed
`doctor_id` field; `lookupFault` the unhandled `StopIteration` when the
session email matches no user (the `next` building `patient_id`);
`indexFault` the unhandled `IndexError` of `users[doctor_id]` — raised
only after the appointment was already appended. -/
inductive BookResponse
  | unauthorized
  | typeFault
  | lookupFault
  | indexFault
  | success
deriving Repr, DecidableEq

/-- The appointment dict built at src/app.py lines 188-198. -/
def newAppointment (freshId now patientEmail : String) (d : Int) (pidx : Nat)
    (f : BookForm) : Appointment :=
  { appointment_id := freshId, patient_email := patientEmail, doctor_id := d,
    date := f.appointment_date, time := f.appointment_time,
    status := "Pending", symptoms := f.symptoms.getD "", patient_id := pidx,
    created_at := now, diagnosis := none, treatment_plan := none,
    prescription := none }

/-- POST `/book-appointment` (src/app.py lines 176-209). Returns the
response, the new state, and the delivery log when `send_email` ran. -/
def book_appointment (deliver : String → String → String → Bool)
    (freshId now : String) (st : AppState) (sess : Session) (f : BookForm) :
    BookResponse × AppState × Option EmailLog :=
  match sess.user with
  | none => (.unauthorized, st, none)
  | some uEmail =>
      if sess.role ≠ some "patient" then (.unauthorized, st, none)
      else
        match pyInt f.doctor_id with
        | none => (.typeFault, st, none)
        | some d =>
            match st.users.findIdx? (fun u => u.email == uEmail) with
            | none => (.lookupFault, st, none)
            | some pidx =>
                let appt := newAppointment freshId now uEmail d pidx f
                let st' : AppState :=
                  { st with appointments := st.appointments ++ [appt] }
                match pyIndex st.users d with
                | none => (.indexFault, st', none)
                | some doctor =>
                    (.success, st',
                     some (send_email deliver doctor.email
                       "New Appointment Booked"
                       ("<h3>New Appointment</h3><p>You have a new appointment on "
                        ++ pyStr f.appointment_date ++ " at "
                        ++ pyStr f.appointment_time ++ ".<br>Symptoms: "
                        ++ (f.symptoms.getD "") ++ "</p>")))

/-! ### view appointment (patient) -/

/-- Outcome of GET `/view-appointment/<id>`. `accessDenied` flashes
"Access denied." and redirects to the patient dashboard, carrying no
appointment data; `fault` is the unhandled `IndexError` of
`users[appt[doctor_id]]` on a dangling doctor index. -/
inductive ViewPatientResult
  | accessDenied
  | fault
  | ok (appt : Appointment) (doctor : User)
deriving Repr, DecidableEq

/-- GET `/view-appointment/<id>` (src/app.py lines 214-222). -/
def view_appointment_patient (st : AppState) (sess : Session)
    (appointment_id : String) : ViewPatientResult :=
  match st.appointments.find? (fun a => a.appointment_id == appointment_id) with
  | none => .accessDenied
  | some a =>
      if sess.user ≠ some a.patient_email then .accessDenied
      else
        match pyIndex st.users a.doctor_id with
        | none => .fault
        | some doc => .ok a doc

/-! ### view appointment (doctor) -/

/-- Outcome of GET `/doctor/view-appointment/<id>`. `notFound` flashes
"Appointment not found." and redirects to the doctor dashboard; `fault`
is the unhandled `IndexError` of `users[appt[patient_id]]`. -/
inductive ViewDoctorResult
  | notFound
  | fault
  | ok (appt : Appointment) (patient : User)
deriving Repr, DecidableEq

/-- GET `/doctor/view-appointment/<id>` (src/app.py lines 224-232). The
handler consults the session nowhere; the parameter is kept to state
claims about it. -/
def view_appointment_doctor (st : AppState) (_sess : Session)
    (appointment_id : String) : ViewDoctorResult :=
  match st.appointments.find? (fun a => a.appointment_id == appointment_id) with
  | none => .notFound
  | some a =>
      match st.users.get? a.patient_id with
      | none => .fault
      | some p => .ok a p

/-! ### submit diagnosis -/

/-- The form fields POST `/doctor/submit-diagnosis/<id>` reads. -/
structure DiagForm where
  diagnosis : Option String
  treatment_plan : Option String
  prescription : Option String
deriving Repr, DecidableEq

/-- Flash outcome of POST `/doctor/submit-diagnosis/<id>`: `unauthorized`
redirects to `/login`; the other two redirect to the doctor dashboard. -/
inductive DiagResponse
  | unauthorized
  | success
  | notFound
deriving Repr, DecidableEq

/-- The in-place update of the matched appointment dict: the three
diagnosis keys take the form values (possibly `None`) and `status`
becomes `Completed`, whatever it was before. -/
def setDiag (f : DiagForm) (a : Appointment) : Appointment :=
  { a with diagnosis := f.diagnosis, treatment_plan := f.treatment_plan,
           prescription := f.prescription, status := "Completed" }

/-- The `for ... break / else` loop: update the first element satisfying
`p`, or report `none` when no element does. -/
def updateFirst {α : Type} (p : α → Bool) (g : α → α) : List α → Option (List α)
  | [] => none
  | x :: xs =>
      if p x then some (g x :: xs)
      else (updateFirst p g xs).map (fun l => x :: l)

/-- POST `/doctor/submit-diagnosis/<id>` (src/app.py lines 234-255). -/
def submit_diagnosis (st : AppState) (sess : Session)
    (appointment_id : String) (f : DiagForm) : DiagResponse × AppState :=
  if sess.user = none ∨ sess.role ≠ some "doctor" then (.unauthorized, st)
  else
    match updateFirst (fun a => a.appointment_id == appointment_id)
        (setDiag f) st.appointments with
    | none => (.notFound, st)
    | some appts => (.success, { st with appointments := appts })

/-! ### concrete records used by witnesses and counterexamples -/

/-- A registered patient, as `signup` would store `p@x`. -/
def samplePatient : User where
  id := "u1"
  type := "patient"
  name := "Pat"
  email := "p@x"
  password := "pw"
  age := some "30"
  address := some "addr"
  specialization := none
  mobile := some "123"

/-- A registered doctor, as `signup` would store `d@x`. -/
def sampleDoctor : User where
  id := "u2"
  type := "doctor"
  name := "Doc"
  email := "d@x"
  password := "pw2"
  age := some "40"
  address := none
  specialization := some "gp"
  mobile := some "456"

/-- A pending appointment booked by `p@x` with the doctor at index 1. -/
def sampleAppointment : Appointment where
  appointment_id := "a1"
  patient_email := "p@x"
  doctor_id := 1
  date := some "2024-05-01"
  time := some "10:00"
  status := "Pending"
  symptoms := "flu"
  patient_id := 0
  created_at := "t0"
  diagnosis := none
  treatment_plan := none
  prescription := none

/-- An already-completed appointment of `p@x` with the doctor at index 1. -/
def sampleCompleted : Appointment where
  appointment_id := "a2"
  patient_email := "p@x"
  doctor_id := 1
  date := some "2024-04-01"
  time := some "09:00"
  status := "Completed"
  symptoms := "cough"
  patient_id := 0
  created_at := "t1"
  diagnosis := some "cold"
  treatment_plan := some "rest"
  prescription := some "tea"

/-! ### helper lemmas -/

theorem updateFirst_eq_none {α : Type} (p : α → Bool) (g : α → α) (l : List α) :
    updateFirst p g l = none ↔ ∀ x ∈ l, ¬ p x := by
  induction l with
  | nil => simp [updateFirst]
  | cons x xs ih =>
      by_cases hx : p x
      · simp [updateFirst, hx]
      · simp [updateFirst, hx, ih]

theorem updateFirst_append {α : Type} (p : α → Bool) (g : α → α)
    (l₁ : List α) (a : α) (l₂ : List α)
    (h₁ : ∀ x ∈ l₁, ¬ p x) (ha : p a) :
    updateFirst p g (l₁ ++ a :: l₂) = some (l₁ ++ g a :: l₂) := by
  induction l₁ with
  | nil => simp [updateFirst, ha]
  | cons x xs ih =>
      have hx : ¬ p x = true := h₁ x (by simp)
      simp [updateFirst, hx, ih (fun y hy => h₁ y (by simp [hy]))]

theorem book_appointment_users_unchanged
    (deliver : String → String → String → Bool) (freshId now : String)
    (st : AppState) (sess : Session) (f : BookForm) :
    (book_appointment deliver freshId now st sess f).2.1.users = st.users := by
  obtain ⟨su, sr⟩ := sess
  cases su with
  | none => rfl
  | some uEmail =>
      unfold book_appointment
      by_cases hr : sr = some "patient"
      · simp only [hr, ne_eq, not_true_eq_false, if_false]
        cases hd : pyInt f.doctor_id with
        | none => rfl
        | some d =>
            dsimp only
            cases hx : st.users.findIdx? (fun x => x.email == uEmail) with
            | none => rfl
            | some pidx =>
                dsimp only
                cases hi : pyIndex st.users d with
                | none => rfl
                | some doc => rfl
      · simp [hr]

theorem submit_diagnosis_users_unchanged (st : AppState) (sess : Session)
    (appointment_id : String) (f : DiagForm) :
    (submit_diagnosis st sess appointment_id f).2.users = st.users := by
  unfold submit_diagnosis
  split
  · rfl
  · cases h : updateFirst (fun a => a.appointment_id == appointment_id)
        (setDiag f) st.appointments with
    | none => rfl
    | some appts => rfl

theorem newUser_email (hash : String → String) (freshId : String)
    (f : SignupForm) : (newUser hash freshId f).email = pyStr f.email := by
  unfold newUser
  split
  · rfl
  · split
    · rfl
    · rfl

theorem signup_preserves_emailsUnique (hash : String → String) (freshId : String)
    (users : List User) (f : SignupForm) (hU : emailsUnique users) :
    emailsUnique (signup hash freshId users f).2 := by
  unfold signup
  split
  · exact hU
  · split
    · exact hU
    · split
      · exact hU
      · rename_i hval hpw hany
        simp only [Bool.not_eq_true', Bool.not_eq_false, Bool.and_eq_true] at hval
        obtain ⟨⟨⟨⟨h1, h2⟩, h3⟩, h4⟩, h5⟩ := hval
        obtain ⟨s, hs⟩ : ∃ s, f.email = some s := by
          cases he : f.email with
          | none => rw [he] at h3; exact absurd h3 (by simp [truthy])
          | some s => exact ⟨s, rfl⟩
        have hnotin : (newUser hash freshId f).email ∉ users.map User.email := by
          intro hmem
          rcases List.mem_map.mp hmem with ⟨u, hu, hue⟩
          have : users.any (fun u => f.email == some u.email) = true := by
            refine List.any_eq_true.mpr ⟨u, hu, ?_⟩
            have : u.email = s := by rw [hue, newUser_email, hs]; rfl
            simp [hs, this]
          simp [this] at hany
        unfold emailsUnique at hU ⊢
        rw [List.map_append]
        refine List.Nodup.append hU (by simp) ?_
        simp only [List.map_cons, List.map_nil, List.disjoint_singleton]
        exact hnotin

/-! ## Claims -/

/-- Claim C2 counterexample: a request to the doctor view-appointment
route with no session at all (neither `user` nor `role` key) does not
fail with `UnauthorizedError`; it returns the appointment together with
the patient record. The handler never consults the session. -/
theorem claim2_counterexample :
    view_appointment_doctor ⟨[samplePatient, sampleDoctor], [sampleAppointment]⟩
      ⟨none, none⟩ "a1" = ViewDoctorResult.ok sampleAppointment samplePatient := by
  rfl

/-- Claim C2 amended: the doctor view-appointment route performs no
session or role check — its outcome is the same for every session,
including the empty one — and it reports not-found exactly when the
identifier matches no stored appointment. -/
theorem view_appointment_doctor_no_auth (st : AppState) (sess sess' : Session)
    (appointment_id : String) :
    view_appointment_doctor st sess appointment_id =
      view_appointment_doctor st sess' appointment_id ∧
    (view_appointment_doctor st sess appointment_id = ViewDoctorResult.notFound ↔
      st.appointments.find? (fun a => a.appointment_id == appointment_id) = none) := by
  unfold view_appointment_doctor
  refine ⟨rfl, ?_⟩
  cases hf : st.appointments.find? (fun a => a.appointment_id == appointment_id) with
  | none => simp
  | some a =>
      cases hg : st.users[a.patient_id]? with
      | none => simp [hg]
      | some p => simp [hg]

/-- Claim C2 amended, witness: exercised on a concrete store with an
unknown appointment identifier. -/
theorem view_appointment_doctor_no_auth_witness :
    view_appointment_doctor ⟨[samplePatient], []⟩ ⟨none, none⟩ "zz" =
      ViewDoctorResult.notFound :=
  (view_appointment_doctor_no_auth ⟨[samplePatient], []⟩ ⟨none, none⟩
    ⟨some "d@x", some "doctor"⟩ "zz").2.mpr rfl

/-- Claim C3: a patient session whose email resolves to no stored user
does not produce the `UnauthorizedError` redirect. The patient dashboard
subscripts the `None` returned by the user lookup (an unhandled
`TypeError`), and the booking route's `next(...)` building `patient_id`
raises an unhandled `StopIteration`; only the doctor dashboard guards
this case. -/
theorem patient_dashboard_ghost_session_fault :
    patient_dashboard ⟨[], []⟩ ⟨some "ghost@x", some "patient"⟩ =
      PatientDashboardResult.fault ∧
    (book_appointment (fun _ _ _ => true) "a1" "t0" ⟨[sampleDoctor], []⟩
        ⟨some "ghost@x", some "patient"⟩
        ⟨some "0", some "2024-05-01", some "10:00", none⟩).1 =
      BookResponse.lookupFault ∧
    PatientDashboardResult.fault ≠ PatientDashboardResult.unauthorized := by
  refine ⟨rfl, rfl, by decide⟩

/-- Claim C4 counterexample: the forgot-password outcome is not the same
for every email — an email with a registered user flashes the reset-link
message while an unknown email flashes a distinct not-found message,
so existence is distinguishable. -/
theorem claim4_counterexample :
    (forgot_password ⟨[samplePatient], []⟩ (some "p@x")).1 =
      ForgotResult.resetLinkSent ∧
    (forgot_password ⟨[samplePatient], []⟩ (some "z@x")).1 =
      ForgotResult.emailNotFound ∧
    ForgotResult.resetLinkSent ≠ ForgotResult.emailNotFound := by
  refine ⟨rfl, rfl, by decide⟩

/-- Claim C4 amended: forgot-password performs no state change on the
stores for any input, and it reports the reset-link outcome exactly when
the email resolves to a stored user (reporting a distinct not-found
outcome otherwise). -/
theorem forgot_password_lookup_only (st : AppState) (email : Option String) :
    (forgot_password st email).2 = st ∧
    ((forgot_password st email).1 = ForgotResult.resetLinkSent ↔
      ∃ u ∈ st.users, email = some u.email) := by
  unfold forgot_password
  cases hf : st.users.find? (fun u => email == some u.email) with
  | none =>
      refine ⟨rfl, ?_⟩
      simp only [List.find?_eq_none] at hf
      constructor
      · intro h; exact absurd h (by simp)
      · rintro ⟨u, hu, he⟩
        exact absurd (by simp [he]) (hf u hu)
  | some u =>
      refine ⟨rfl, ?_⟩
      constructor
      · intro _
        refine ⟨u, List.mem_of_find?_eq_some hf, ?_⟩
        have := List.find?_some hf
        simpa using this
      · intro _; rfl

/-- Claim C4 amended, witness: on a concrete store, the state is
unchanged and a registered email yields the reset-link outcome. -/
theorem forgot_password_lookup_only_witness :
    (forgot_password ⟨[samplePatient], []⟩ (some "p@x")).1 =
      ForgotResult.resetLinkSent :=
  (forgot_password_lookup_only ⟨[samplePatient], []⟩ (some "p@x")).2.mpr
    ⟨samplePatient, by decide, rfl⟩

/-- Claim C10: with an active patient session, a booking POST whose
`doctor_id` field is absent or fails Python integer conversion stops at
the `int(...)` call: no appointment dict is built, and both stores are
returned exactly as they were. -/
theorem book_appointment_bad_doctor_id
    (deliver : String → String → String → Bool) (freshId now : String)
    (st : AppState) (sess : Session) (f : BookForm) (u : String)
    (h1 : sess.user = some u) (h2 : sess.role = some "patient")
    (h3 : pyInt f.doctor_id = none) :
    book_appointment deliver freshId now st sess f =
      (BookResponse.typeFault, st, none) := by
  unfold book_appointment
  rw [h1]
  simp [h2, h3]

/-- Claim C10 witness: a concrete booking POST with the `doctor_id` key
absent from the form. -/
theorem book_appointment_bad_doctor_id_witness :
    book_appointment (fun _ _ _ => true) "a1" "t0" ⟨[samplePatient], []⟩
      ⟨some "p@x", some "patient"⟩
      ⟨none, some "2024-05-01", some "10:00", none⟩ =
      (BookResponse.typeFault, ⟨[samplePatient], []⟩, none) :=
  book_appointment_bad_doctor_id (fun _ _ _ => true) "a1" "t0"
    ⟨[samplePatient], []⟩ ⟨some "p@x", some "patient"⟩
    ⟨none, some "2024-05-01", some "10:00", none⟩ "p@x" rfl rfl rfl

/-- Claim C1 counterexample: with one stored user (a patient) and an
active patient session, a booking POST whose `doctor_id` is `5` — an
index resolving to no user at all — still appends an appointment to the
ledger (the `users[doctor_id]` lookup only runs after the append), and a
booking POST whose `doctor_id` is `0` — resolving to the patient, not a
doctor — completes successfully. -/
theorem claim1_counterexample :
    pyIndex (AppState.mk [samplePatient] []).users (5 : Int) = none ∧
    (book_appointment (fun _ _ _ => true) "a1" "t0" ⟨[samplePatient], []⟩
        ⟨some "p@x", some "patient"⟩
        ⟨some "5", some "2024-05-01", some "10:00", none⟩).2.1.appointments ≠ [] ∧
    samplePatient.type ≠ "doctor" ∧
    (book_appointment (fun _ _ _ => true) "a2" "t0" ⟨[samplePatient], []⟩
        ⟨some "p@x", some "patient"⟩
        ⟨some "0", some "2024-05-01", some "10:00", none⟩).1 =
      BookResponse.success := by
  refine ⟨rfl, by decide, by decide, rfl⟩

/-- Claim C1 amended: the booking route validates nothing about
`doctor_id` beyond integer conversion. Once the patient session, the
conversion and the patient-index lookup succeed, the appointment is
appended to the ledger unconditionally; when `doctor_id` indexes no user
the workflow then halts with an unhandled `IndexError` (no
`NotFoundError` path exists) with the appointment already in the ledger,
and when it indexes any user — doctor or not — the booking succeeds. -/
theorem book_appointment_appends_unchecked
    (deliver : String → String → String → Bool) (freshId now : String)
    (st : AppState) (sess : Session) (f : BookForm) (u : String) (d : Int)
    (pidx : Nat)
    (h1 : sess.user = some u) (h2 : sess.role = some "patient")
    (h3 : pyInt f.doctor_id = some d)
    (h4 : st.users.findIdx? (fun x => x.email == u) = some pidx) :
    (book_appointment deliver freshId now st sess f).2.1.appointments =
      st.appointments ++ [newAppointment freshId now u d pidx f] ∧
    (pyIndex st.users d = none →
      book_appointment deliver freshId now st sess f =
        (BookResponse.indexFault,
          { st with appointments :=
              st.appointments ++ [newAppointment freshId now u d pidx f] },
          none)) ∧
    (∀ doc, pyIndex st.users d = some doc →
      (book_appointment deliver freshId now st sess f).1 =
        BookResponse.success) := by
  unfold book_appointment
  rw [h1]
  simp only [h2, h3, h4, ne_eq, not_true_eq_false, if_false]
  cases hi : pyIndex st.users d with
  | none => simp
  | some doc0 => simp

/-- Claim C1 amended, witness: the concrete out-of-range booking of the
counterexample state, where the resulting state still holds the new
appointment. -/
theorem book_appointment_appends_unchecked_witness :
    book_appointment (fun _ _ _ => true) "a1" "t0" ⟨[samplePatient], []⟩
        ⟨some "p@x", some "patient"⟩
        ⟨some "5", some "2024-05-01", some "10:00", none⟩ =
      (BookResponse.indexFault,
        ⟨[samplePatient],
          [newAppointment "a1" "t0" "p@x" 5 0
            ⟨some "5", some "2024-05-01", some "10:00", none⟩]⟩,
        none) :=
  (book_appointment_appends_unchecked (fun _ _ _ => true) "a1" "t0"
    ⟨[samplePatient], []⟩ ⟨some "p@x", some "patient"⟩
    ⟨some "5", some "2024-05-01", some "10:00", none⟩ "p@x" 5 0
    rfl rfl (by decide) (by decide)).2.1 rfl

/-- Claim C9: the booking outcome — the response to the caller and the
resulting state, hence the appended appointment — is the same function
of the inputs whatever the delivery oracle does; a notification gateway
that always fails changes at most the log entry. -/
theorem book_appointment_notification_independent
    (deliver deliver' : String → String → String → Bool)
    (freshId now : String) (st : AppState) (sess : Session) (f : BookForm) :
    (book_appointment deliver freshId now st sess f).1 =
      (book_appointment deliver' freshId now st sess f).1 ∧
    (book_appointment deliver freshId now st sess f).2.1 =
      (book_appointment deliver' freshId now st sess f).2.1 := by
  obtain ⟨su, sr⟩ := sess
  cases su with
  | none => exact ⟨rfl, rfl⟩
  | some uEmail =>
      unfold book_appointment
      by_cases hr : sr = some "patient"
      · simp only [hr, ne_eq, not_true_eq_false, if_false]
        cases hd : pyInt f.doctor_id with
        | none => exact ⟨rfl, rfl⟩
        | some d =>
            dsimp only
            cases hx : st.users.findIdx? (fun x => x.email == uEmail) with
            | none => exact ⟨rfl, rfl⟩
            | some pidx =>
                dsimp only
                cases hi : pyIndex st.users d with
                | none => exact ⟨rfl, rfl⟩
                | some doc => exact ⟨rfl, rfl⟩
      · simp [hr]

/-- Claim C5: with a unique-email store, login succeeds — establishing
the matched user's email and role in the session and redirecting to the
role's dashboard — exactly when some stored user has the submitted email
and role and the password verifies against the stored digest; every
failure, whatever its cause, is the single `invalidCredentials` outcome. -/
theorem login_iff_credentials (verify : String → String → Bool)
    (users : List User) (r e p : String) (hU : emailsUnique users) :
    (login verify users (some r) (some e) (some p) =
        LoginResult.success e r (r ++ "_dashboard") ↔
      ∃ u ∈ users, u.email = e ∧ u.type = r ∧ verify u.password p) ∧
    ((¬ ∃ u ∈ users, u.email = e ∧ u.type = r ∧ verify u.password p) →
      login verify users (some r) (some e) (some p) =
        LoginResult.invalidCredentials) := by
  unfold login
  cases hf : users.find? (fun u => some e == some u.email && some r == some u.type) with
  | none =>
      have hno := List.find?_eq_none.mp hf
      constructor
      · constructor
        · intro h; exact absurd h (by simp)
        · rintro ⟨u, hu, he, ht, hv⟩
          exact absurd (by simp [he, ht]) (hno u hu)
      · intro _; rfl
  | some u0 =>
      have hmem := List.mem_of_find?_eq_some hf
      have hp0 := List.find?_some hf
      simp only [Bool.and_eq_true, beq_iff_eq, Option.some.injEq] at hp0
      have he0 : u0.email = e := hp0.1.symm
      have ht0 : u0.type = r := hp0.2.symm
      dsimp only
      by_cases hv : verify u0.password p
      · rw [if_pos hv]
        constructor
        · constructor
          · intro _; exact ⟨u0, hmem, he0, ht0, hv⟩
          · intro _; rw [he0, ht0]; rfl
        · intro hn; exact absurd ⟨u0, hmem, he0, ht0, hv⟩ hn
      · rw [if_neg hv]
        constructor
        · constructor
          · intro h; exact absurd h (by simp)
          · rintro ⟨u, hu, he, ht, hv'⟩
            have heq : u = u0 :=
              List.inj_on_of_nodup_map hU hu hmem (by rw [he, he0])
            exact absurd (heq ▸ hv') hv
        · intro _; rfl

/-- Claim C5 witness: a concrete store where the patient's credentials
log in to the patient dashboard. -/
theorem login_iff_credentials_witness :
    login (fun d q => d == q) [samplePatient, sampleDoctor]
        (some "patient") (some "p@x") (some "pw") =
      LoginResult.success "p@x" "patient" "patient_dashboard" := by
  have h := (login_iff_credentials (fun d q => d == q)
    [samplePatient, sampleDoctor] "patient" "p@x" "pw" (by decide)).1.mpr
    ⟨samplePatient, by decide, rfl, rfl, by decide⟩
  exact h

/-- Claim C6 counterexample: a signup whose email is already registered
but whose `name` field is missing fails with the missing-fields
validation message, not with `DuplicateEmailError`. -/
theorem claim6_counterexample :
    (∃ u ∈ [samplePatient], u.email = "p@x") ∧
    (signup (fun s => s) "u9" [samplePatient]
        ⟨some "patient", none, some "p@x", some "q", some "q",
         none, none, none, none, none⟩).1 = SignupResult.missingFields ∧
    SignupResult.missingFields ≠ SignupResult.duplicateEmail := by
  refine ⟨⟨samplePatient, by decide, rfl⟩, rfl, by decide⟩

/-- Claim C6 amended: a signup whose email is already registered never
changes the user store and never succeeds; it fails with
`DuplicateEmailError` whenever the required fields are non-blank and the
passwords match (and with a validation error otherwise). Email
uniqueness is preserved by signup and by every other state-changing
operation, none of which touches the user store. -/
theorem signup_email_uniqueness (hash : String → String) (freshId : String)
    (users : List User) (f : SignupForm) (hU : emailsUnique users) :
    emailsUnique (signup hash freshId users f).2 ∧
    (∀ e, f.email = some e → (∃ u ∈ users, u.email = e) →
      (signup hash freshId users f).2 = users ∧
      (signup hash freshId users f).1 ≠ SignupResult.success ∧
      ((truthy f.userType ∧ truthy f.name ∧ truthy f.email ∧
        truthy f.password ∧ truthy f.confirm_password ∧
        f.password = f.confirm_password) →
        (signup hash freshId users f).1 = SignupResult.duplicateEmail)) ∧
    (∀ deliver freshId2 now st sess bf, emailsUnique st.users →
      emailsUnique (book_appointment deliver freshId2 now st sess bf).2.1.users) ∧
    (∀ st sess aid df, emailsUnique st.users →
      emailsUnique (submit_diagnosis st sess aid df).2.users) ∧
    (∀ st em, emailsUnique st.users →
      emailsUnique (forgot_password st em).2.users) := by
  refine ⟨signup_preserves_emailsUnique hash freshId users f hU, ?_, ?_, ?_, ?_⟩
  · intro e he hdup
    have hany : users.any (fun u => f.email == some u.email) = true := by
      rcases hdup with ⟨u, hu, hue⟩
      exact List.any_eq_true.mpr ⟨u, hu, by simp [he, hue]⟩
    unfold signup
    cases hv : (truthy f.userType && truthy f.name && truthy f.email &&
        truthy f.password && truthy f.confirm_password) with
    | false =>
        rw [if_pos (show (!false) = true by decide)]
        refine ⟨rfl, by simp, ?_⟩
        rintro ⟨t1, t2, t3, t4, t5, -⟩
        rw [t1, t2, t3, t4, t5] at hv
        exact absurd hv (by decide)
    | true =>
        rw [if_neg (show ¬(!true) = true by decide)]
        by_cases hpw : f.password = f.confirm_password
        · rw [if_neg (not_not_intro hpw), if_pos hany]
          exact ⟨rfl, by simp, fun _ => rfl⟩
        · rw [if_pos hpw]
          refine ⟨rfl, by simp, ?_⟩
          rintro ⟨-, -, -, -, -, hpc⟩
          exact absurd hpc hpw
  · intro deliver freshId2 now st sess bf h
    rw [book_appointment_users_unchanged deliver freshId2 now st sess bf]
    exact h
  · intro st sess aid df h
    rw [submit_diagnosis_users_unchanged st sess aid df]
    exact h
  · intro st em h
    unfold forgot_password
    cases hf : st.users.find? (fun u => em == some u.email) with
    | none => exact h
    | some u => exact h

/-- Claim C6 amended, witness: a well-formed signup for an email already
in the store fails with the duplicate outcome and leaves the store as it
was. -/
theorem signup_email_uniqueness_witness :
    (signup (fun s => s) "u9" [samplePatient]
        ⟨some "patient", some "Nm", some "p@x", some "q", some "q",
         none, none, none, none, none⟩).1 = SignupResult.duplicateEmail ∧
    (signup (fun s => s) "u9" [samplePatient]
        ⟨some "patient", some "Nm", some "p@x", some "q", some "q",
         none, none, none, none, none⟩).2 = [samplePatient] := by
  have h := (signup_email_uniqueness (fun s => s) "u9" [samplePatient]
    ⟨some "patient", some "Nm", some "p@x", some "q", some "q",
     none, none, none, none, none⟩ (by decide)).2.1 "p@x" rfl
    ⟨samplePatient, by decide, rfl⟩
  exact ⟨h.2.2 (by refine ⟨by decide, by decide, by decide, by decide, by decide, rfl⟩), h.1⟩

/-- Claim C7: with an active doctor session, diagnosis submission on an
unknown appointment identifier reports not-found and mutates nothing,
while submission on an existing appointment — whatever its prior status,
a completed one included — rewrites exactly that appointment: its status
becomes `Completed` and the three diagnosis fields take the submitted
values, overwriting whatever was stored. -/
theorem submit_diagnosis_spec (st : AppState) (sess : Session)
    (appointment_id : String) (f : DiagForm)
    (hu : sess.user ≠ none) (hr : sess.role = some "doctor") :
    ((∀ x ∈ st.appointments, x.appointment_id ≠ appointment_id) →
      submit_diagnosis st sess appointment_id f = (DiagResponse.notFound, st)) ∧
    (∀ l₁ a l₂, st.appointments = l₁ ++ a :: l₂ →
      (∀ x ∈ l₁, x.appointment_id ≠ appointment_id) →
      a.appointment_id = appointment_id →
      submit_diagnosis st sess appointment_id f =
        (DiagResponse.success,
          { st with appointments := l₁ ++ setDiag f a :: l₂ }) ∧
      (setDiag f a).status = "Completed" ∧
      (setDiag f a).diagnosis = f.diagnosis ∧
      (setDiag f a).treatment_plan = f.treatment_plan ∧
      (setDiag f a).prescription = f.prescription) := by
  have hcond : ¬(sess.user = none ∨ sess.role ≠ some "doctor") :=
    not_or.mpr ⟨hu, by simp [hr]⟩
  constructor
  · intro hnone
    unfold submit_diagnosis
    rw [if_neg hcond]
    have hupd : updateFirst (fun a => a.appointment_id == appointment_id)
        (setDiag f) st.appointments = none :=
      (updateFirst_eq_none _ _ _).mpr (fun x hx => by simpa using hnone x hx)
    rw [hupd]
  · intro l₁ a l₂ hsplit hl₁ ha
    unfold submit_diagnosis
    rw [if_neg hcond, hsplit,
        updateFirst_append _ _ l₁ a l₂ (fun x hx => by simpa using hl₁ x hx)
          (by simp [ha])]
    exact ⟨rfl, rfl, rfl, rfl, rfl⟩

/-- Claim C7 witness: re-submission over an already-completed concrete
appointment overwrites its diagnosis fields and re-sets `Completed`. -/
theorem submit_diagnosis_spec_witness :
    submit_diagnosis ⟨[samplePatient, sampleDoctor], [sampleCompleted]⟩
        ⟨some "d@x", some "doctor"⟩ "a2"
        ⟨some "flu", some "hydrate", some "pill"⟩ =
      (DiagResponse.success,
        ⟨[samplePatient, sampleDoctor],
         [setDiag ⟨some "flu", some "hydrate", some "pill"⟩ sampleCompleted]⟩) := by
  have h := (submit_diagnosis_spec ⟨[samplePatient, sampleDoctor], [sampleCompleted]⟩
    ⟨some "d@x", some "doctor"⟩ "a2" ⟨some "flu", some "hydrate", some "pill"⟩
    (by simp) rfl).2 [] sampleCompleted [] rfl (by simp) rfl
  exact h.1

/-- Claim C8 counterexample: in the state a booking with the
out-of-range `doctor_id` 5 leaves behind (the appointment is already in
the ledger when `users[doctor_id]` faults), the owner of that
appointment — the appointment exists and the session email equals its
`patient_email` — does not get a successful view: the route raises the
unhandled `IndexError` of `users[appt[doctor_id]]`, which is neither a
success nor the `AccessDenied` outcome. -/
theorem claim8_counterexample :
    (book_appointment (fun _ _ _ => true) "a1" "t0" ⟨[samplePatient], []⟩
        ⟨some "p@x", some "patient"⟩
        ⟨some "5", some "2024-05-01", some "10:00", none⟩).2.1.appointments.find?
        (fun x => x.appointment_id == "a1") =
      some (newAppointment "a1" "t0" "p@x" 5 0
        ⟨some "5", some "2024-05-01", some "10:00", none⟩) ∧
    (newAppointment "a1" "t0" "p@x" 5 0
      ⟨some "5", some "2024-05-01", some "10:00", none⟩).patient_email = "p@x" ∧
    view_appointment_patient
        (book_appointment (fun _ _ _ => true) "a1" "t0" ⟨[samplePatient], []⟩
          ⟨some "p@x", some "patient"⟩
          ⟨some "5", some "2024-05-01", some "10:00", none⟩).2.1
        ⟨some "p@x", some "patient"⟩ "a1" = ViewPatientResult.fault ∧
    ViewPatientResult.fault ≠ ViewPatientResult.accessDenied := by
  refine ⟨rfl, rfl, rfl, by decide⟩

/-- Claim C8 amended: the patient view route answers denial — carrying
no appointment data — exactly when the identifier is unknown or the
session is not the owner; an owner request returns the appointment with
its doctor when the appointment's `doctor_id` indexes the user list, and
otherwise halts with the unhandled `IndexError` of line 221 instead of
succeeding. -/
theorem view_appointment_patient_access_cases (st : AppState) (sess : Session)
    (appointment_id : String) :
    (st.appointments.find? (fun x => x.appointment_id == appointment_id) = none →
      view_appointment_patient st sess appointment_id =
        ViewPatientResult.accessDenied) ∧
    (∀ a, st.appointments.find? (fun x => x.appointment_id == appointment_id) =
        some a →
      (sess.user ≠ some a.patient_email →
        view_appointment_patient st sess appointment_id =
          ViewPatientResult.accessDenied) ∧
      (sess.user = some a.patient_email →
        (∀ doc, pyIndex st.users a.doctor_id = some doc →
          view_appointment_patient st sess appointment_id =
            ViewPatientResult.ok a doc) ∧
        (pyIndex st.users a.doctor_id = none →
          view_appointment_patient st sess appointment_id =
            ViewPatientResult.fault))) := by
  constructor
  · intro h
    unfold view_appointment_patient
    rw [h]
  · intro a ha
    constructor
    · intro hne
      unfold view_appointment_patient
      rw [ha]
      dsimp only
      rw [if_pos hne]
    · intro he
      constructor
      · intro doc hdoc
        unfold view_appointment_patient
        rw [ha]
        dsimp only
        rw [if_neg (by simp [he]), hdoc]
      · intro hnone
        unfold view_appointment_patient
        rw [ha]
        dsimp only
        rw [if_neg (by simp [he]), hnone]

/-- Claim C8 amended, witness: on a concrete store whose appointment
references a stored doctor, the owner's session views its own
appointment and gets the appointment with its doctor. -/
theorem view_appointment_patient_access_cases_witness :
    view_appointment_patient ⟨[samplePatient, sampleDoctor], [sampleAppointment]⟩
        ⟨some "p@x", some "patient"⟩ "a1" =
      ViewPatientResult.ok sampleAppointment sampleDoctor :=
  (((view_appointment_patient_access_cases
      ⟨[samplePatient, sampleDoctor], [sampleAppointment]⟩
      ⟨some "p@x", some "patient"⟩ "a1").2 sampleAppointment
      (by decide)).2 rfl).1 sampleDoctor rfl

end MedTrack
